import Mathlib

/-!
Verification of the safe plotting-code execution gate of the chatbot
repository (source file `todsop03.py`, class `PlotAgent`).

The shallow embedding below models:
- the allow-list `PlotAgent.ALLOWED_KEYWORDS` (source lines 18-21);
- the keyword validator and the sandboxed executor of
  `CodeExecutor.execute_safe_code` (the module `todsop_utils` is not part of
  the repository sources, so these are modelled from the specification);
- `PlotAgent._validate_columns`, `PlotAgent._extract_and_execute_code`,
  `PlotAgent.process_query` and `PlotAgent.run` (translated from the source);
- `PlotAgent._initialize_llm` and `PlotAgent.__init__` (translated from the
  source, with the environment and Python float conversion abstracted).

External collaborators (the langchain agent, the snippet extractor
`CodeExecutor.extract_code_snippet`, the Python `exec` of a snippet, the
environment) are universally quantified function parameters.  Observable
actions (invoking the agent, executing a snippet) are recorded in an event
trace so that claims such as "the executor is never invoked" and "exactly one
execution attempt" are statable.
-/

namespace ChatbotPlot

/-- Observable events of one query: the langchain agent being invoked, and a
code snippet being executed with a given namespace (list of bound names) and
a given dataframe handle. -/
inductive Event where
  | agentInvoked (query : String)
  | snippetExecuted (code : String) (nsNames : List String) (dfHandle : Nat)
deriving DecidableEq, Repr

/-- The allow-list of `PlotAgent` (source lines 18-21), verbatim. -/
def ALLOWED_KEYWORDS : List String :=
  ["df", "iloc", "to_dict", "mean", "mode", "std",
   "max", "min", "color", "plot", "unique", "groupby"]

/-! ### Spec-modelled keyword validator

`CodeExecutor` lives in `todsop_utils`, which is not among the repository
sources; the validator below is modelled from the specification, section 4.2:
tokenize the snippet into identifier-like units, skip string literals,
numeric literals, Python control keywords and keyword-argument names, and
require every remaining identifier or attribute/method token to be a member
of the allow-list; an empty snippet fails. -/

/-- Modelled from the spec: an identifier character for the tokenizer
(splitting on non-alphanumeric boundaries, underscores included). -/
def isIdentChar (c : Char) : Bool := c.isAlphanum || c == '_'

/-- The single-quote character, used as a Python string delimiter. -/
def squote : Char := Char.ofNat 39

/-- The double-quote character, used as a Python string delimiter. -/
def dquote : Char := Char.ofNat 34

/-- Modelled from the spec: a token of a snippet, with the syntactic context
the validator needs: whether it is an attribute/method access (preceded by a
dot) and whether it is immediately followed by an equals sign (a
keyword-argument name or assignment target, a syntactic element rather than
an invoked capability). -/
structure Tok where
  name : String
  afterDot : Bool
  beforeEq : Bool
deriving DecidableEq, Repr

/-- Modelled from the spec: skip the body of a string literal delimited by
`q`, returning the characters after the closing delimiter. -/
def dropStringLit (q : Char) : List Char → List Char
  | [] => []
  | c :: cs => if c == q then cs else dropStringLit q cs

/-- Modelled from the spec: take the longest identifier run at the head. -/
def takeIdent : List Char → List Char × List Char
  | [] => ([], [])
  | c :: cs =>
    if isIdentChar c then
      let r := takeIdent cs
      (c :: r.1, r.2)
    else ([], c :: cs)

/-- Modelled from the spec: whether the next significant character is a
single equals sign (keyword-argument / assignment syntax, not comparison). -/
def nextIsEq (cs : List Char) : Bool :=
  match cs.dropWhile (fun c => c == ' ') with
  | c :: rest => c == '=' && rest.head? != some '='
  | [] => false

/-- Modelled from the spec: fuel-driven scanner producing the identifier-like
tokens of a snippet, skipping string literals; `prev` is the previous
significant character (to detect attribute access). -/
def scanToks : Nat → Option Char → List Char → List Tok
  | 0, _, _ => []
  | fuel + 1, prev, cs =>
    match cs with
    | [] => []
    | c :: rest =>
      if c == squote then scanToks fuel (some c) (dropStringLit squote rest)
      else if c == dquote then scanToks fuel (some c) (dropStringLit dquote rest)
      else if isIdentChar c then
        let p := takeIdent (c :: rest)
        let tok : Tok := ⟨String.mk p.1, prev == some '.', nextIsEq p.2⟩
        tok :: scanToks fuel (some c) p.2
      else if c == ' ' then scanToks fuel prev rest
      else scanToks fuel (some c) rest

/-- Modelled from the spec: tokenization of a code snippet. -/
def tokenize (code : String) : List Tok :=
  scanToks (code.toList.length + 1) none code.toList

/-- Modelled from the spec: Python control keywords, syntactic elements that
the validator does not treat as permission-requiring capabilities. -/
def PYTHON_KEYWORDS : List String :=
  ["import", "from", "as", "for", "in", "if", "else", "elif", "while",
   "return", "def", "lambda", "and", "or", "not", "is", "with",
   "pass", "break", "continue", "True", "False", "None"]

/-- Modelled from the spec: whether a token requires allow-list permission
(it is not a keyword-argument name, not a control keyword, and not a numeric
literal). -/
def requiresPermission (t : Tok) : Bool :=
  !(t.beforeEq && !t.afterDot)
    && !(PYTHON_KEYWORDS.contains t.name)
    && !(t.name.toList.all Char.isDigit)

/-- Modelled from the spec: the permission-requiring tokens of a snippet that
are outside the allow-list (reported to the user on rejection). -/
def disallowedTokens (code : String) (allowed : List String) : List String :=
  ((tokenize code).filter
    (fun t => requiresPermission t && !(allowed.contains t.name))).map Tok.name

/-- Modelled from the spec: the binary pass/fail decision of the keyword
validator (section 4.2); an empty snippet fails. -/
def validate_code (code : String) (allowed : List String) : Bool :=
  !(code == "")
    && (tokenize code).all
      (fun t => !(requiresPermission t) || allowed.contains t.name)

/-- Modelled from the spec: `CodeExecutor.execute_safe_code` (sections 4.2,
4.3, 7): validate the snippet against the allow-list; on pass, execute it in
the restricted namespace (recorded as a trace event, with the result of the
external execution `exec_code`); on fail, skip execution entirely and report
the offending tokens as an error. -/
def execute_safe_code (exec_code : String → Nat → Except String Unit)
    (code : String) (allowed : List String) (nsNames : List String)
    (dfHandle : Nat) : List Event × Except String Unit :=
  if validate_code code allowed then
    ([Event.snippetExecuted code nsNames dfHandle], exec_code code dfHandle)
  else
    ([], Except.error
      ("Disallowed tokens found: "
        ++ String.intercalate ", " (disallowedTokens code allowed)))

/-! ### The PlotAgent pipeline, translated from `src/todsop03.py` -/

/-- Python `str.lower()`: map every character to lower case. -/
def py_lower (s : String) : String := String.mk (s.toList.map Char.toLower)

/-- Whether `needle` occurs at the head of `hay` (character lists). -/
def headMatches : List Char → List Char → Bool
  | [], _ => true
  | _ :: _, [] => false
  | a :: as, b :: bs => a == b && headMatches as bs

/-- Python substring containment `needle in hay` (character lists). -/
def containsChars (needle : List Char) : List Char → Bool
  | [] => needle.isEmpty
  | c :: cs => headMatches needle (c :: cs) || containsChars needle cs

/-- Python substring containment on strings: `py_in needle hay` models the
Python expression `needle in hay`. -/
def py_in (needle hay : String) : Bool := containsChars needle.toList hay.toList

/-- The configuration of the language-model client built by
`PlotAgent._initialize_llm` (source lines 30-37).  `T` is the type of the
temperature value (a Python float, kept abstract). -/
structure LLMConfig (T : Type) where
  base_url : String
  model : String
  api_key : Option String
  temperature : T
deriving DecidableEq, Repr

/-- `PlotAgent._initialize_llm` (source lines 30-37): each field is read from
the environment `env` with the source's default.  `pyfloat` models Python
`float(s)` on a string and `floatZero` models `float(0)` (the conversion of
the integer default of `os.getenv`). -/
def initialize_llm {T : Type} (pyfloat : String → T) (floatZero : T)
    (env : String → Option String) : LLMConfig T :=
  { base_url := (env "PANDAS_BASE_URL").getD "https://api.opentyphoon.ai/v1"
    model := (env "PANDAS_MODEL").getD "typhoon-v1.5x-70b-instruct"
    api_key := env "PLOT_API_KEY"
    temperature :=
      match env "PANDAS_TEMPERATURE" with
      | some s => pyfloat s
      | none => floatZero }

/-- The fields of a `PlotAgent` instance (source lines 23-28): the
language-model client configuration, handles for the data handler, dataframe
and langchain agent objects (object identity as `Nat`), and the dataframe's
column names. -/
structure PlotAgentState (T : Type) where
  llm : LLMConfig T
  data_handler : Nat
  df : Nat
  dfCols : List String
  data_analysis_agent : Nat
deriving DecidableEq, Repr

/-- `PlotAgent.__init__` (source lines 23-28): build the llm from the
environment, obtain the dataframe from `DataHandler.get_data()` (the module
`todsop04` is not among the sources, so `get_data` is an abstract function
from the handler's handle to a dataframe handle and its columns), and create
the langchain agent. -/
def init {T : Type} (pyfloat : String → T) (floatZero : T)
    (env : String → Option String) (data_handler : Nat)
    (get_data : Nat → Nat × List String) (create_agent : Nat) :
    PlotAgentState T :=
  let d := get_data data_handler
  { llm := initialize_llm pyfloat floatZero env
    data_handler := data_handler
    df := d.1
    dfCols := d.2
    data_analysis_agent := create_agent }

/-- `PlotAgent._validate_columns` (source lines 56-67): collect the required
columns missing from the dataframe and raise a ValueError naming all of them
if any is missing. -/
def validate_columns {T : Type} (s : PlotAgentState T)
    (required_columns : List String) : Except String Unit :=
  let missing_columns :=
    required_columns.filter (fun col => !(s.dfCols.contains col))
  if missing_columns.isEmpty then
    Except.ok ()
  else
    Except.error
      ("Missing required columns: " ++ String.intercalate ", " missing_columns)

/-- `PlotAgent._extract_and_execute_code` (source lines 69-85): extract the
snippet from the response's output field (defaulting to the empty string when
the field is absent), raise a ValueError on the empty sentinel, otherwise
pass the snippet, `ALLOWED_KEYWORDS` and the fresh namespace binding
df, pd and plt to `CodeExecutor.execute_safe_code`.  Returns the (unchanged)
agent state, the event trace and the outcome. -/
def extract_and_execute_code {T : Type} (extract : String → String)
    (exec_code : String → Nat → Except String Unit) (s : PlotAgentState T)
    (response : Option String) :
    PlotAgentState T × List Event × Except String Unit :=
  let code_snippet := extract (response.getD "")
  if code_snippet == "" then
    (s, [], Except.error "No valid code snippet generated by the agent.")
  else
    (s, execute_safe_code exec_code code_snippet ALLOWED_KEYWORDS
      ["df", "pd", "plt"] s.df)

/-- The agent-invocation step of `PlotAgent.process_query` (source lines
100-101): invoke the langchain agent on the query (recorded as a trace
event) and pass its response to `_extract_and_execute_code`.  `agent` models
`self.data_analysis_agent.invoke`: it may fail, and its output field may be
absent. -/
def invoke_and_execute {T : Type}
    (agent : String → Except String (Option String))
    (extract : String → String)
    (exec_code : String → Nat → Except String Unit)
    (s : PlotAgentState T) (input_user : String) :
    PlotAgentState T × List Event × Except String Unit :=
  match agent input_user with
  | Except.error e => (s, [Event.agentInvoked input_user], Except.error e)
  | Except.ok response =>
    let r := extract_and_execute_code extract exec_code s response
    (r.1, Event.agentInvoked input_user :: r.2.1, r.2.2)

/-- The body of the try block of `PlotAgent.process_query` (source lines
95-101): pre-check the required columns when the lowercased query mentions
"sale price" (raising before the agent is invoked when columns are missing),
then invoke the agent and extract-and-execute its response. -/
def process_query_body {T : Type}
    (agent : String → Except String (Option String))
    (extract : String → String)
    (exec_code : String → Nat → Except String Unit)
    (s : PlotAgentState T) (input_user : String) :
    PlotAgentState T × List Event × Except String Unit :=
  if py_in "sale price" (py_lower input_user) then
    match validate_columns s ["sale price", "country"] with
    | Except.error e => (s, [], Except.error e)
    | Except.ok _ => invoke_and_execute agent extract exec_code s input_user
  else
    invoke_and_execute agent extract exec_code s input_user

/-- `PlotAgent.process_query` (source lines 87-104): run the try-block body;
any error is caught by the except clause and converted to the printed message
(returned as `some message`; `none` on success). -/
def process_query {T : Type}
    (agent : String → Except String (Option String))
    (extract : String → String)
    (exec_code : String → Nat → Except String Unit)
    (s : PlotAgentState T) (input_user : String) :
    PlotAgentState T × List Event × Option String :=
  match process_query_body agent extract exec_code s input_user with
  | (s1, evs, Except.ok _) => (s1, evs, none)
  | (s1, evs, Except.error e) =>
    (s1, evs, some ("An error occurred while processing the query: " ++ e))

/-- `PlotAgent.run` (source lines 106-114): print the query and delegate to
`process_query`. -/
def run {T : Type}
    (agent : String → Except String (Option String))
    (extract : String → String)
    (exec_code : String → Nat → Except String Unit)
    (s : PlotAgentState T) (input_user : String) :
    PlotAgentState T × List Event × Option String :=
  process_query agent extract exec_code s input_user

/-- The snippet of scenario 1 of the specification. -/
def scenario1_snippet : String :=
  "df['sale price'].groupby(df['country']).mean().plot(kind='bar')"

/-- Number of agent invocations recorded in an event trace. -/
def countAgentInvocations (evs : List Event) : Nat :=
  evs.countP (fun e => match e with
    | Event.agentInvoked _ => true
    | _ => false)

/-- Number of snippet executions recorded in an event trace. -/
def countExecutions (evs : List Event) : Nat :=
  evs.countP (fun e => match e with
    | Event.snippetExecuted _ _ _ => true
    | _ => false)

/-- A concrete agent state used to instantiate the universally quantified
theorems below on closed inputs. -/
def demoAgentState : PlotAgentState Unit :=
  { llm := { base_url := "", model := "", api_key := none, temperature := () }
    data_handler := 0
    df := 7
    dfCols := ["sale price", "country"]
    data_analysis_agent := 1 }

/-! ### Helper lemmas on event traces -/

/-- Any event in the trace of `execute_safe_code` is the execution of the
given snippet, and it occurs only when validation passed. -/
lemma mem_execute_safe_code_trace
    {exec_code : String → Nat → Except String Unit} {code : String}
    {allowed nsNames : List String} {dfh : Nat} {e : Event}
    (h : e ∈ (execute_safe_code exec_code code allowed nsNames dfh).1) :
    e = Event.snippetExecuted code nsNames dfh
      ∧ validate_code code allowed = true := by
  unfold execute_safe_code at h
  by_cases hv : validate_code code allowed
  · simp [hv] at h
    exact ⟨h, hv⟩
  · simp [hv] at h

/-- `_extract_and_execute_code` leaves the agent state unchanged. -/
lemma extract_and_execute_code_state {T : Type}
    (extract : String → String) (exec_code : String → Nat → Except String Unit)
    (s : PlotAgentState T) (response : Option String) :
    (extract_and_execute_code extract exec_code s response).1 = s := by
  unfold extract_and_execute_code
  by_cases hx : extract (response.getD "") == "" <;> simp [hx]

/-- Any event in the trace of `_extract_and_execute_code` is an execution of
the extracted (non-empty) snippet, in the fresh df/pd/plt namespace on the
agent's dataframe, and only after validation against `ALLOWED_KEYWORDS`
passed. -/
lemma mem_extract_and_execute_code_trace {T : Type}
    {extract : String → String} {exec_code : String → Nat → Except String Unit}
    {s : PlotAgentState T} {response : Option String} {e : Event}
    (h : e ∈ (extract_and_execute_code extract exec_code s response).2.1) :
    e = Event.snippetExecuted (extract (response.getD ""))
        ["df", "pd", "plt"] s.df
      ∧ extract (response.getD "") ≠ ""
      ∧ validate_code (extract (response.getD "")) ALLOWED_KEYWORDS = true := by
  unfold extract_and_execute_code at h
  by_cases hx : extract (response.getD "") == ""
  · simp [hx] at h
  · simp only [hx, Bool.false_eq_true, if_false] at h
    have h2 := mem_execute_safe_code_trace h
    exact ⟨h2.1, by simpa using hx, h2.2⟩

/-- `invoke_and_execute` leaves the agent state unchanged. -/
lemma invoke_and_execute_state {T : Type}
    (agent : String → Except String (Option String))
    (extract : String → String) (exec_code : String → Nat → Except String Unit)
    (s : PlotAgentState T) (input_user : String) :
    (invoke_and_execute agent extract exec_code s input_user).1 = s := by
  unfold invoke_and_execute
  cases agent input_user with
  | error e => rfl
  | ok response => simpa using extract_and_execute_code_state extract exec_code s response

/-- Any event in the trace of `invoke_and_execute` is the agent invocation or
an execution event of `_extract_and_execute_code` on the agent's response. -/
lemma mem_invoke_and_execute_trace {T : Type}
    {agent : String → Except String (Option String)}
    {extract : String → String} {exec_code : String → Nat → Except String Unit}
    {s : PlotAgentState T} {input_user : String} {e : Event}
    (h : e ∈ (invoke_and_execute agent extract exec_code s input_user).2.1) :
    e = Event.agentInvoked input_user
      ∨ ∃ response, agent input_user = Except.ok response
          ∧ e ∈ (extract_and_execute_code extract exec_code s response).2.1 := by
  unfold invoke_and_execute at h
  cases ha : agent input_user with
  | error err =>
    rw [ha] at h
    simp at h
    exact Or.inl h
  | ok response =>
    rw [ha] at h
    simp at h
    rcases h with h | h
    · exact Or.inl h
    · exact Or.inr ⟨response, rfl, h⟩

/-- `process_query_body` leaves the agent state unchanged. -/
lemma process_query_body_state {T : Type}
    (agent : String → Except String (Option String))
    (extract : String → String) (exec_code : String → Nat → Except String Unit)
    (s : PlotAgentState T) (input_user : String) :
    (process_query_body agent extract exec_code s input_user).1 = s := by
  unfold process_query_body
  split
  · split
    · rfl
    · exact invoke_and_execute_state agent extract exec_code s input_user
  · exact invoke_and_execute_state agent extract exec_code s input_user

/-- Any event in the trace of `process_query_body` comes from
`invoke_and_execute`. -/
lemma mem_process_query_body_trace {T : Type}
    {agent : String → Except String (Option String)}
    {extract : String → String} {exec_code : String → Nat → Except String Unit}
    {s : PlotAgentState T} {input_user : String} {e : Event}
    (h : e ∈ (process_query_body agent extract exec_code s input_user).2.1) :
    e ∈ (invoke_and_execute agent extract exec_code s input_user).2.1 := by
  unfold process_query_body at h
  split at h
  · split at h
    · simp at h
    · exact h
  · exact h

/-- `process_query` has the same final state and trace as its try-block body,
and converts its error (when any) to the printed message. -/
lemma process_query_eq_body {T : Type}
    (agent : String → Except String (Option String))
    (extract : String → String) (exec_code : String → Nat → Except String Unit)
    (s : PlotAgentState T) (input_user : String) :
    (process_query agent extract exec_code s input_user).1
        = (process_query_body agent extract exec_code s input_user).1
      ∧ (process_query agent extract exec_code s input_user).2.1
        = (process_query_body agent extract exec_code s input_user).2.1 := by
  unfold process_query
  rcases hb : process_query_body agent extract exec_code s input_user with ⟨s1, evs, r⟩
  cases r <;> simp

/-! ### Claim theorems -/

/-- C1: every execution of a generated code snippet is gated by validation
against the allow-list: any snippet-execution event in the trace of
`process_query` is of a snippet that passed `validate_code` against
`ALLOWED_KEYWORDS`; by construction of `execute_safe_code` a rejected snippet
produces no execution event at all (fail-closed, no partial execution). -/
theorem executed_snippet_passed_validation {T : Type}
    (agent : String → Except String (Option String))
    (extract : String → String) (exec_code : String → Nat → Except String Unit)
    (s : PlotAgentState T) (input_user code : String) (nsNames : List String)
    (dfh : Nat)
    (h : Event.snippetExecuted code nsNames dfh
      ∈ (process_query agent extract exec_code s input_user).2.1) :
    validate_code code ALLOWED_KEYWORDS = true := by
  rw [(process_query_eq_body agent extract exec_code s input_user).2] at h
  have h1 := mem_process_query_body_trace h
  rcases mem_invoke_and_execute_trace h1 with h2 | ⟨response, _, h3⟩
  · simp at h2
  · obtain ⟨h4, _, h6⟩ := mem_extract_and_execute_code_trace h3
    injection h4 with hc _ _
    rw [hc]
    exact h6

/-- Witness for C1: a concrete run in which the scenario-1 snippet is
executed, so the theorem yields that it passed validation. -/
theorem executed_snippet_passed_validation_witness :
    validate_code scenario1_snippet ALLOWED_KEYWORDS = true :=
  executed_snippet_passed_validation (fun _ => Except.ok (some "resp"))
    (fun _ => scenario1_snippet) (fun _ _ => Except.ok ()) demoAgentState
    "plot the data" scenario1_snippet ["df", "pd", "plt"] 7 (by decide)

/-- C2: when the extracted snippet is the empty sentinel,
`_extract_and_execute_code` raises the ValueError with the exact message
"No valid code snippet generated by the agent." and its trace is empty: the
executor is never invoked for that query. -/
theorem empty_snippet_raises_value_error {T : Type}
    (extract : String → String) (exec_code : String → Nat → Except String Unit)
    (s : PlotAgentState T) (response : Option String)
    (h : extract (response.getD "") = "") :
    extract_and_execute_code extract exec_code s response =
      (s, [], Except.error "No valid code snippet generated by the agent.") := by
  unfold extract_and_execute_code
  simp [h]

/-- Witness for C2 on the spec's scenario-3 response. -/
theorem empty_snippet_raises_value_error_witness :
    extract_and_execute_code (fun _ => "") (fun _ _ => Except.ok ())
        demoAgentState (some "Here is your chart idea but no code.") =
      (demoAgentState, [],
        Except.error "No valid code snippet generated by the agent.") :=
  empty_snippet_raises_value_error (fun _ => "") (fun _ _ => Except.ok ())
    demoAgentState (some "Here is your chart idea but no code.") rfl

/-- C3: `process_query` never propagates an error: whenever its try-block
body ends in an error (extraction-empty, column validation, agent failure or
execution error), the result is the printed user-facing message, and in every
case the returned message is either none or such a converted message. -/
theorem process_query_catches_all_errors {T : Type}
    (agent : String → Except String (Option String))
    (extract : String → String) (exec_code : String → Nat → Except String Unit)
    (s : PlotAgentState T) (input_user : String) :
    (∀ (s1 : PlotAgentState T) (evs : List Event) (e : String),
        process_query_body agent extract exec_code s input_user
          = (s1, evs, Except.error e) →
        process_query agent extract exec_code s input_user
          = (s1, evs,
              some ("An error occurred while processing the query: " ++ e)))
      ∧ ((process_query agent extract exec_code s input_user).2.2 = none
        ∨ ∃ e, (process_query agent extract exec_code s input_user).2.2
            = some ("An error occurred while processing the query: " ++ e)) := by
  constructor
  · intro s1 evs e h
    unfold process_query
    rw [h]
  · unfold process_query
    rcases hb : process_query_body agent extract exec_code s input_user
      with ⟨s1, evs, r⟩
    cases r with
    | ok u => simp
    | error e => exact Or.inr ⟨e, rfl⟩

/-- Witness for C3: a concrete run whose body raises the extraction-empty
error, converted by `process_query` to the printed message. -/
theorem process_query_catches_all_errors_witness :
    process_query (fun _ => Except.ok (some "resp")) (fun _ => "")
        (fun _ _ => Except.ok ()) demoAgentState "plot something" =
      (demoAgentState, [Event.agentInvoked "plot something"],
        some ("An error occurred while processing the query: "
          ++ "No valid code snippet generated by the agent.")) :=
  (process_query_catches_all_errors (fun _ => Except.ok (some "resp"))
      (fun _ => "") (fun _ _ => Except.ok ()) demoAgentState
      "plot something").1
    demoAgentState [Event.agentInvoked "plot something"]
    "No valid code snippet generated by the agent." rfl

/-- C4: the allow-list is the fixed constant list from the source, and every
validation call performed by `_extract_and_execute_code` (on any non-empty
snippet) goes through `execute_safe_code` with exactly `ALLOWED_KEYWORDS`. -/
theorem allowed_keywords_fixed_and_shared :
    ALLOWED_KEYWORDS = ["df", "iloc", "to_dict", "mean", "mode", "std",
        "max", "min", "color", "plot", "unique", "groupby"]
      ∧ ∀ (T : Type) (extract : String → String)
          (exec_code : String → Nat → Except String Unit)
          (s : PlotAgentState T) (response : Option String),
          extract (response.getD "") ≠ "" →
          extract_and_execute_code extract exec_code s response =
            (s, execute_safe_code exec_code (extract (response.getD ""))
              ALLOWED_KEYWORDS ["df", "pd", "plt"] s.df) := by
  refine ⟨rfl, ?_⟩
  intro T extract exec_code s response hne
  unfold extract_and_execute_code
  simp [hne]

/-- Witness for C4 at a concrete non-empty snippet. -/
theorem allowed_keywords_fixed_and_shared_witness :
    extract_and_execute_code (fun _ => "df") (fun _ _ => Except.ok ())
        demoAgentState none =
      (demoAgentState, execute_safe_code (fun _ _ => Except.ok ()) "df"
        ALLOWED_KEYWORDS ["df", "pd", "plt"] demoAgentState.df) :=
  allowed_keywords_fixed_and_shared.2 Unit (fun _ => "df")
    (fun _ _ => Except.ok ()) demoAgentState none (by decide)

/-- The trace of `_extract_and_execute_code` is empty or a single execution
of the extracted snippet in the fresh df/pd/plt namespace. -/
lemma extract_and_execute_code_trace_cases {T : Type}
    (extract : String → String) (exec_code : String → Nat → Except String Unit)
    (s : PlotAgentState T) (response : Option String) :
    (extract_and_execute_code extract exec_code s response).2.1 = []
      ∨ (extract_and_execute_code extract exec_code s response).2.1
          = [Event.snippetExecuted (extract (response.getD ""))
              ["df", "pd", "plt"] s.df] := by
  unfold extract_and_execute_code execute_safe_code
  by_cases hx : extract (response.getD "") == ""
  · simp [hx]
  · by_cases hv : validate_code (extract (response.getD "")) ALLOWED_KEYWORDS
    · simp [hx, hv]
    · simp [hx, hv]

/-- The trace of `invoke_and_execute` is the single agent invocation,
possibly followed by a single snippet execution. -/
lemma invoke_and_execute_trace_cases {T : Type}
    (agent : String → Except String (Option String))
    (extract : String → String) (exec_code : String → Nat → Except String Unit)
    (s : PlotAgentState T) (input_user : String) :
    (invoke_and_execute agent extract exec_code s input_user).2.1
        = [Event.agentInvoked input_user]
      ∨ ∃ code nsNames dfh,
          (invoke_and_execute agent extract exec_code s input_user).2.1
            = [Event.agentInvoked input_user,
               Event.snippetExecuted code nsNames dfh] := by
  unfold invoke_and_execute
  cases ha : agent input_user with
  | error err => exact Or.inl rfl
  | ok response =>
    rcases extract_and_execute_code_trace_cases extract exec_code s response
      with he | he
    · exact Or.inl (by simp [he])
    · exact Or.inr ⟨extract (response.getD ""), ["df", "pd", "plt"], s.df,
        by simp [he]⟩

/-- The trace of `process_query_body` is empty, a single agent invocation, or
an agent invocation followed by a single snippet execution. -/
lemma process_query_body_trace_cases {T : Type}
    (agent : String → Except String (Option String))
    (extract : String → String) (exec_code : String → Nat → Except String Unit)
    (s : PlotAgentState T) (input_user : String) :
    (process_query_body agent extract exec_code s input_user).2.1 = []
      ∨ (process_query_body agent extract exec_code s input_user).2.1
          = [Event.agentInvoked input_user]
      ∨ ∃ code nsNames dfh,
          (process_query_body agent extract exec_code s input_user).2.1
            = [Event.agentInvoked input_user,
               Event.snippetExecuted code nsNames dfh] := by
  unfold process_query_body
  split
  · split
    · exact Or.inl rfl
    · exact Or.inr
        (invoke_and_execute_trace_cases agent extract exec_code s input_user)
  · exact Or.inr
      (invoke_and_execute_trace_cases agent extract exec_code s input_user)

/-- The observable part (trace and message) of `invoke_and_execute` does not
depend on the dataframe columns stored in the state. -/
lemma invoke_and_execute_snd_congr_cols {T : Type}
    (agent : String → Except String (Option String))
    (extract : String → String) (exec_code : String → Nat → Except String Unit)
    (s : PlotAgentState T) (cols2 : List String) (input_user : String) :
    (invoke_and_execute agent extract exec_code
        { s with dfCols := cols2 } input_user).2
      = (invoke_and_execute agent extract exec_code s input_user).2 := by
  unfold invoke_and_execute extract_and_execute_code
  cases agent input_user with
  | error err => rfl
  | ok response =>
    by_cases hx : extract (response.getD "") == "" <;> simp [hx]

/-- C5: every snippet execution in any `process_query` run happens in a
namespace binding exactly the names df, pd and plt, and
`_extract_and_execute_code` stores no namespace in the agent state (it is
built per invocation and the state is returned unchanged). -/
theorem execution_namespace_exact {T : Type}
    (agent : String → Except String (Option String))
    (extract : String → String) (exec_code : String → Nat → Except String Unit)
    (s : PlotAgentState T) (input_user : String) :
    (∀ (code : String) (nsNames : List String) (dfh : Nat),
        Event.snippetExecuted code nsNames dfh
          ∈ (process_query agent extract exec_code s input_user).2.1 →
        nsNames = ["df", "pd", "plt"])
      ∧ ∀ response,
          (extract_and_execute_code extract exec_code s response).1 = s := by
  constructor
  · intro code nsNames dfh h
    rw [(process_query_eq_body agent extract exec_code s input_user).2] at h
    have h1 := mem_process_query_body_trace h
    rcases mem_invoke_and_execute_trace h1 with h2 | ⟨response, _, h3⟩
    · simp at h2
    · obtain ⟨h4, _, _⟩ := mem_extract_and_execute_code_trace h3
      injection h4
  · intro response
    exact extract_and_execute_code_state extract exec_code s response

/-- Witness for C5 at a concrete run with an executed snippet. -/
theorem execution_namespace_exact_witness :
    ["df", "pd", "plt"] = ["df", "pd", "plt"]
      ∧ (extract_and_execute_code (fun _ => scenario1_snippet)
          (fun _ _ => Except.ok ()) demoAgentState (some "resp")).1
        = demoAgentState :=
  ⟨(execution_namespace_exact (fun _ => Except.ok (some "resp"))
      (fun _ => scenario1_snippet) (fun _ _ => Except.ok ()) demoAgentState
      "plot the data").1 scenario1_snippet ["df", "pd", "plt"] 7 (by decide),
   (execution_namespace_exact (fun _ => Except.ok (some "resp"))
      (fun _ => scenario1_snippet) (fun _ _ => Except.ok ()) demoAgentState
      "plot the data").2 (some "resp")⟩

/-- C7: exactly one attempt per query: any `process_query` trace records at
most one agent invocation and at most one snippet execution (no retry). -/
theorem one_attempt_per_query {T : Type}
    (agent : String → Except String (Option String))
    (extract : String → String) (exec_code : String → Nat → Except String Unit)
    (s : PlotAgentState T) (input_user : String) :
    countAgentInvocations
        (process_query agent extract exec_code s input_user).2.1 ≤ 1
      ∧ countExecutions
        (process_query agent extract exec_code s input_user).2.1 ≤ 1 := by
  rw [(process_query_eq_body agent extract exec_code s input_user).2]
  rcases process_query_body_trace_cases agent extract exec_code s input_user
    with h | h | ⟨code, nsNames, dfh, h⟩ <;>
    rw [h] <;>
    simp [countAgentInvocations, countExecutions, List.countP, List.countP.go]

/-- C6: when the lowercased query contains "sale price", `process_query`
pre-checks the columns 'sale price' and 'country' and, when any is missing,
ends with the ValueError message naming all missing columns, without invoking
the agent (empty trace); when the query does not contain the substring, no
column pre-check is performed: the observable outcome is independent of the
dataframe's columns. -/
theorem sale_price_column_precheck {T : Type}
    (agent : String → Except String (Option String))
    (extract : String → String) (exec_code : String → Nat → Except String Unit)
    (s : PlotAgentState T) (input_user : String) :
    (py_in "sale price" (py_lower input_user) = true →
        (["sale price", "country"].filter
          (fun col => !(s.dfCols.contains col))) ≠ [] →
        process_query agent extract exec_code s input_user =
          (s, [], some ("An error occurred while processing the query: "
            ++ ("Missing required columns: "
              ++ String.intercalate ", "
                (["sale price", "country"].filter
                  (fun col => !(s.dfCols.contains col)))))))
      ∧ (py_in "sale price" (py_lower input_user) = false →
          ∀ cols2 : List String,
            (process_query agent extract exec_code s input_user).2
              = (process_query agent extract exec_code
                  { s with dfCols := cols2 } input_user).2) := by
  constructor
  · intro hq hm
    have hmi : (["sale price", "country"].filter
        (fun col => !(s.dfCols.contains col))).isEmpty = false := by
      cases hL : ["sale price", "country"].filter
          (fun col => !(s.dfCols.contains col)) with
      | nil => exact absurd hL hm
      | cons a as => rfl
    unfold process_query process_query_body validate_columns
    simp only [hq, if_true, hmi, Bool.false_eq_true, if_false]
  · intro hq cols2
    have hinv := invoke_and_execute_snd_congr_cols agent extract exec_code s
      cols2 input_user
    unfold process_query process_query_body
    simp only [hq, Bool.false_eq_true, if_false]
    rcases h1 : invoke_and_execute agent extract exec_code s input_user
      with ⟨s1, evs, r⟩
    rcases h2 : invoke_and_execute agent extract exec_code
        { s with dfCols := cols2 } input_user with ⟨s2, evs2, r2⟩
    rw [h1, h2] at hinv
    simp only [Prod.mk.injEq] at hinv
    obtain ⟨hevs, hr⟩ := hinv
    subst hevs
    subst hr
    cases r2 <;> simp

/-- Witness for C6: a concrete query mentioning "Sale Price" against a state
with no columns ends with the message naming both missing columns and an
empty trace. -/
theorem sale_price_column_precheck_witness :
    process_query (fun _ => Except.ok (some "resp"))
        (fun _ => scenario1_snippet) (fun _ _ => Except.ok ())
        { demoAgentState with dfCols := [] } "plot Sale Price by country" =
      ({ demoAgentState with dfCols := [] }, [],
        some ("An error occurred while processing the query: "
          ++ ("Missing required columns: "
            ++ String.intercalate ", " ["sale price", "country"]))) :=
  (sale_price_column_precheck (fun _ => Except.ok (some "resp"))
      (fun _ => scenario1_snippet) (fun _ _ => Except.ok ())
      { demoAgentState with dfCols := [] } "plot Sale Price by country").1
    (by decide) (by decide)

/-- C8: the scenario-1 snippet passes validation under `ALLOWED_KEYWORDS`,
and `execute_safe_code` then runs it: the outcome records the execution event
in the df/pd/plt namespace and is the result of the external execution (which
produces the chart). -/
theorem scenario1_validator_pass_executor_runs :
    validate_code scenario1_snippet ALLOWED_KEYWORDS = true
      ∧ ∀ (exec_code : String → Nat → Except String Unit) (dfh : Nat),
          execute_safe_code exec_code scenario1_snippet ALLOWED_KEYWORDS
              ["df", "pd", "plt"] dfh =
            ([Event.snippetExecuted scenario1_snippet ["df", "pd", "plt"] dfh],
              exec_code scenario1_snippet dfh) := by
  have hv : validate_code scenario1_snippet ALLOWED_KEYWORDS = true := by decide
  refine ⟨hv, ?_⟩
  intro exec_code dfh
  unfold execute_safe_code
  rw [hv]
  simp

/-- C9: with every environment variable unset, `_initialize_llm` yields the
source's defaults (typhoon base url and model, absent api key, temperature
float(0)); the api key has no default; and whenever PANDAS_TEMPERATURE is
set, the temperature is the Python float conversion of its value. -/
theorem initialize_llm_defaults {T : Type} (pyfloat : String → T)
    (floatZero : T) :
    (initialize_llm pyfloat floatZero (fun _ => none) =
        { base_url := "https://api.opentyphoon.ai/v1"
          model := "typhoon-v1.5x-70b-instruct"
          api_key := none
          temperature := floatZero })
      ∧ (∀ env : String → Option String,
          (initialize_llm pyfloat floatZero env).api_key = env "PLOT_API_KEY")
      ∧ (∀ (env : String → Option String) (v : String),
          env "PANDAS_TEMPERATURE" = some v →
          (initialize_llm pyfloat floatZero env).temperature = pyfloat v) := by
  refine ⟨rfl, fun env => rfl, fun env v hv => ?_⟩
  unfold initialize_llm
  rw [hv]

/-- Witness for C9 at a concrete environment setting only the temperature. -/
theorem initialize_llm_defaults_witness :
    (initialize_llm (fun s => s.length) 0 (fun _ => none) =
        { base_url := "https://api.opentyphoon.ai/v1"
          model := "typhoon-v1.5x-70b-instruct"
          api_key := none
          temperature := 0 })
      ∧ (initialize_llm (fun s => s.length) 0
          (fun k => if k == "PANDAS_TEMPERATURE" then some "0.7" else none)
          ).temperature = (fun s : String => s.length) "0.7" :=
  ⟨(initialize_llm_defaults (fun s : String => s.length) 0).1,
   (initialize_llm_defaults (fun s : String => s.length) 0).2.2
     (fun k => if k == "PANDAS_TEMPERATURE" then some "0.7" else none)
     "0.7" rfl⟩

/-- C10: the dataframe handle is fixed at construction (`__init__` stores the
result of `DataHandler.get_data()`), `process_query`, `run` and
`_extract_and_execute_code` leave every agent field unchanged, and every
execution namespace binds the dataframe stored in the state. -/
theorem plot_agent_state_frame {T : Type}
    (agent : String → Except String (Option String))
    (extract : String → String) (exec_code : String → Nat → Except String Unit)
    (s : PlotAgentState T) (input_user : String) :
    (∀ (pyfloat : String → T) (floatZero : T) (env : String → Option String)
        (dh : Nat) (get_data : Nat → Nat × List String) (ca : Nat),
        (init pyfloat floatZero env dh get_data ca).df = (get_data dh).1)
      ∧ (process_query agent extract exec_code s input_user).1 = s
      ∧ (run agent extract exec_code s input_user).1 = s
      ∧ (∀ response,
          (extract_and_execute_code extract exec_code s response).1 = s)
      ∧ (∀ (code : String) (nsNames : List String) (dfh : Nat),
          Event.snippetExecuted code nsNames dfh
            ∈ (process_query agent extract exec_code s input_user).2.1 →
          dfh = s.df) := by
  have hstate : (process_query agent extract exec_code s input_user).1 = s := by
    rw [(process_query_eq_body agent extract exec_code s input_user).1]
    exact process_query_body_state agent extract exec_code s input_user
  refine ⟨fun pyfloat floatZero env dh get_data ca => rfl, hstate, hstate,
    fun response => extract_and_execute_code_state extract exec_code s response,
    fun code nsNames dfh h => ?_⟩
  rw [(process_query_eq_body agent extract exec_code s input_user).2] at h
  have h1 := mem_process_query_body_trace h
  rcases mem_invoke_and_execute_trace h1 with h2 | ⟨response, _, h3⟩
  · simp at h2
  · obtain ⟨h4, _, _⟩ := mem_extract_and_execute_code_trace h3
    injection h4

/-- Witness for C10 at a concrete run with an executed snippet. -/
theorem plot_agent_state_frame_witness :
    (init (fun _ => ()) () (fun _ => none) 0
        (fun _ => (7, ["sale price", "country"])) 1).df = 7
      ∧ (process_query (fun _ => Except.ok (some "resp"))
          (fun _ => scenario1_snippet) (fun _ _ => Except.ok ())
          demoAgentState "plot the data").1 = demoAgentState
      ∧ (7 : Nat) = demoAgentState.df :=
  ⟨(plot_agent_state_frame (fun _ => Except.ok (some "resp"))
      (fun _ => scenario1_snippet) (fun _ _ => Except.ok ()) demoAgentState
      "plot the data").1 (fun _ => ()) () (fun _ => none) 0
      (fun _ => (7, ["sale price", "country"])) 1,
   (plot_agent_state_frame (fun _ => Except.ok (some "resp"))
      (fun _ => scenario1_snippet) (fun _ _ => Except.ok ()) demoAgentState
      "plot the data").2.1,
   (plot_agent_state_frame (fun _ => Except.ok (some "resp"))
      (fun _ => scenario1_snippet) (fun _ _ => Except.ok ()) demoAgentState
      "plot the data").2.2.2.2 scenario1_snippet ["df", "pd", "plt"] 7
      (by decide)⟩

end ChatbotPlot
